import Mathlib

/-!
Verification of the library-manager repository: a shallow embedding of the
Express route handlers in src/backend/routes/books.js and of the browser
client logic in src/frontend/js/script.js, together with theorems settling
the specification claims about them.

Modelling conventions:
* A database table is a list of rows.  Column constraints of the storage
  engine (NOT NULL, ENUM, CHECK, UNIQUE, defaults) are out of model: the
  specification scopes the relational engine out as an external
  collaborator, so every non-id column is Option-typed here.  The
  timestamp columns are omitted; no claim concerns them.
* JavaScript values that may be null or undefined are Option-typed; the
  mysql2 driver renders both as SQL NULL, which is Option.none here.
* JavaScript truthiness on strings and numbers is modelled explicitly
  (jsFalsyStr, jsTruthyStr, jsTruthyInt).
-/

/-! ## Server data model (books table rows, request bodies, responses) -/

/-- One row of the books table, as selected by the routes.  All non-id
columns are nullable from the point of view of this model: constraint
enforcement belongs to the storage engine, an external collaborator. -/
structure BookRow where
  id : Nat
  title : Option String
  author : Option String
  isbn : Option String
  genre : Option String
  year_published : Option Int
  status : Option String
  rating : Option Int
  notes : Option String
deriving DecidableEq

/-- The eight fields destructured from req.body by the POST and PUT
handlers.  A field absent from the body destructures to undefined,
modelled as none (mysql2 renders undefined and null alike as SQL NULL). -/
structure BookBody where
  title : Option String
  author : Option String
  isbn : Option String
  genre : Option String
  year_published : Option Int
  status : Option String
  rating : Option Int
  notes : Option String
deriving DecidableEq

/-- The JSON responses of the POST and PUT handlers that the claims
mention: 201 with the re-read row, 200 with the re-read row, 400 with an
error message, 404 with an error message.  The re-read payload is the
first row of a SELECT by id, hence an Option. -/
inductive ApiResponse where
  | created (body : Option BookRow)
  | okBook (body : Option BookRow)
  | badRequest (msg : String)
  | notFound (msg : String)
deriving DecidableEq

/-- JavaScript falsiness of a string-or-nullish value, as tested by
`if (!title || !author)`: undefined, null and the empty string are falsy. -/
def jsFalsyStr : Option String → Bool
  | none => true
  | some s => s == ""

/-- Whether a response is the 400 validation failure. -/
def isBadRequest : ApiResponse → Bool
  | .badRequest _ => true
  | _ => false

/-- POST /api/books (router.post in src/backend/routes/books.js).
Validates title and author with `if (!title || !author)` and answers 400
before any query; otherwise INSERTs a row listing all eight columns
explicitly (so no column default of the schema applies; absent fields are
inserted as NULL), then re-reads the new row by insertId and answers 201
with it.  Returns the response together with the table after the request;
`insertId` stands for the AUTO_INCREMENT id the engine assigns. -/
def postBook (db : List BookRow) (insertId : Nat) (body : BookBody) :
    ApiResponse × List BookRow :=
  if jsFalsyStr body.title || jsFalsyStr body.author then
    (.badRequest "Title and author are required", db)
  else
    let row : BookRow :=
      { id := insertId
        title := body.title
        author := body.author
        isbn := body.isbn
        genre := body.genre
        year_published := body.year_published
        status := body.status
        rating := body.rating
        notes := body.notes }
    let db2 := db ++ [row]
    (.created (db2.find? (fun r => r.id == insertId)), db2)

/-- The SET clause of the UPDATE statement: every mutable column is
overwritten with the corresponding body field, unconditionally. -/
def setRow (body : BookBody) (r : BookRow) : BookRow :=
  { r with
      title := body.title
      author := body.author
      isbn := body.isbn
      genre := body.genre
      year_published := body.year_published
      status := body.status
      rating := body.rating
      notes := body.notes }

/-- PUT /api/books/:id (router.put in src/backend/routes/books.js).
Issues the unconditional UPDATE of all mutable columns for the given id
(no title/author validation), checks affectedRows, answers 404 when zero
rows matched, and otherwise re-reads the row by id and answers 200 with
it.  Returns the response together with the table after the request. -/
def putBook (db : List BookRow) (i : Nat) (body : BookBody) :
    ApiResponse × List BookRow :=
  let db2 := db.map (fun r => if r.id = i then setRow body r else r)
  let affectedRows := db.countP (fun r => r.id == i)
  if affectedRows = 0 then (.notFound "Book not found", db2)
  else (.okBook (db2.find? (fun r => r.id == i)), db2)

/-- The aggregate accumulators of the statistics SELECT: COUNT(*), the
three conditional COUNTs, and the numerator and denominator of
AVG(rating) (AVG ignores NULL ratings). -/
structure StatsAcc where
  total_books : Nat
  books_read : Nat
  books_reading : Nat
  books_to_read : Nat
  rating_sum : Int
  rating_count : Nat
deriving DecidableEq

/-- The single pass over the books table performed by the statistics
query, accumulating all five aggregates at once. -/
def statsScan : List BookRow → StatsAcc
  | [] =>
    { total_books := 0
      books_read := 0
      books_reading := 0
      books_to_read := 0
      rating_sum := 0
      rating_count := 0 }
  | r :: rs =>
    let acc := statsScan rs
    { total_books := acc.total_books + 1
      books_read := acc.books_read + (if r.status == some "read" then 1 else 0)
      books_reading := acc.books_reading + (if r.status == some "reading" then 1 else 0)
      books_to_read := acc.books_to_read + (if r.status == some "to-read" then 1 else 0)
      rating_sum := acc.rating_sum + (match r.rating with | some v => v | none => 0)
      rating_count := acc.rating_count + (if r.rating.isSome then 1 else 0) }

/-- The JSON payload of GET /api/books/stats/overview. -/
structure Stats where
  total_books : Nat
  books_read : Nat
  books_reading : Nat
  books_to_read : Nat
  average_rating : Option Rat
deriving DecidableEq

/-- GET /api/books/stats/overview (router.get in
src/backend/routes/books.js): the five aggregates of the statistics
query.  AVG(rating) is NULL when every rating is NULL, otherwise the
quotient of the sum of the non-null ratings by their count. -/
def getStats (db : List BookRow) : Stats :=
  let acc := statsScan db
  { total_books := acc.total_books
    books_read := acc.books_read
    books_reading := acc.books_reading
    books_to_read := acc.books_to_read
    average_rating :=
      if acc.rating_count = 0 then none
      else some ((acc.rating_sum : Rat) / (acc.rating_count : Rat)) }

/-! ## Client data model (src/frontend/js/script.js) -/

/-- A book object as the client script uses it: the JSON shape served by
the API.  title and author are strings (the search handler calls
toLowerCase on them); the optional fields may be null. -/
structure Book where
  id : Nat
  title : String
  author : String
  isbn : Option String
  genre : Option String
  year_published : Option Int
  status : Option String
  rating : Option Int
  notes : Option String
deriving DecidableEq

/-- The client state the search and filter handlers touch: the module
variables books and filteredBooks, plus the two DOM input values the
handlers read (searchInput.value and filterStatus.value; the dropdown
uses the empty string for the all-statuses choice). -/
structure ClientState where
  books : List Book
  filteredBooks : List Book
  searchValue : String
  statusValue : String
deriving DecidableEq

/-- JavaScript String.prototype.toLowerCase, character by character
(ASCII-faithful; the repository data is ASCII). -/
def toLowerStr (s : String) : String := ⟨s.data.map Char.toLower⟩

/-- JavaScript String.prototype.includes: substring containment. -/
def jsIncludes (s sub : String) : Bool := decide (sub.data <:+: s.data)

/-- The predicate of handleSearch's filter call: title or author contains
the (already lowercased) search term, case-insensitively. -/
def searchMatches (searchTerm : String) (b : Book) : Bool :=
  jsIncludes (toLowerStr b.title) searchTerm ||
  jsIncludes (toLowerStr b.author) searchTerm

/-- applyStatusFilter: when filterStatus.value is truthy (non-empty), it
further filters the current filteredBooks by strict equality of status
with the selected value; otherwise it does nothing. -/
def applyStatusFilter (st : ClientState) : ClientState :=
  if st.statusValue == "" then st
  else { st with filteredBooks :=
          st.filteredBooks.filter (fun b => b.status == some st.statusValue) }

/-- handleSearch: the input event fires with the search field holding q;
the handler lowercases it, recomputes filteredBooks from books by the
title-or-author containment test, then applies the status filter on top
(rendering touches no state). -/
def handleSearch (st : ClientState) (q : String) : ClientState :=
  let searchTerm := toLowerStr q
  applyStatusFilter
    { st with
        searchValue := q
        filteredBooks := st.books.filter (searchMatches searchTerm) }

/-- handleFilter: the change event fires with the dropdown holding v; the
handler applies the status filter to the current filteredBooks and
re-renders (rendering touches no state). -/
def handleFilter (st : ClientState) (v : String) : ClientState :=
  applyStatusFilter { st with statusValue := v }

/-- What the GET /api/books fetch of loadBooks can yield: a rejected
promise (network failure), a response whose JSON body is the books array,
or a non-success response whose JSON body is an error object carrying a
message (loadBooks never checks response.ok, so it parses either body). -/
inductive FetchResult where
  | networkError
  | httpOk (books : List Book)
  | httpError (msg : String)

/-- The two module variables as the load and mutation flows see them.
books holds whatever the last parsed response body was: the books array,
or an error object (Except.error) when a non-success body was parsed. -/
structure StoreState where
  books : Except String (List Book)
  filteredBooks : List Book

/-- loadBooks: on a network failure the catch block only reports, so the
state is untouched; on a success response books and filteredBooks are
both set to the fetched array; on a non-success response the handler
still assigns the parsed error object to books, then the array spread
`[...books]` throws (an object is not iterable) before filteredBooks is
assigned, and the catch block only reports. -/
def loadBooks (s : StoreState) : FetchResult → StoreState
  | .networkError => s
  | .httpOk bs => { books := Except.ok bs, filteredBooks := bs }
  | .httpError m =>
    { books := Except.error m, filteredBooks := s.filteredBooks }

/-- Outcome of a mutation request (POST, PUT or DELETE) as the client
sees it: rejected fetch, response with response.ok false, or success. -/
inductive MutationOutcome where
  | networkError
  | httpFail
  | httpOk

/-- handleAddBook: only on a success response does it reload the list
(loadStatistics and the form reset touch neither books nor
filteredBooks); on `!response.ok` it throws, and on either failure the
catch block only reports, with no state write. -/
def handleAddBook (s : StoreState) (outcome : MutationOutcome)
    (reload : FetchResult) : StoreState :=
  match outcome with
  | .httpOk => loadBooks s reload
  | .networkError => s
  | .httpFail => s

/-- handleEditBook: same control flow as handleAddBook regarding the two
module variables. -/
def handleEditBook (s : StoreState) (outcome : MutationOutcome)
    (reload : FetchResult) : StoreState :=
  match outcome with
  | .httpOk => loadBooks s reload
  | .networkError => s
  | .httpFail => s

/-- deleteBook: returns immediately when the confirmation dialog is
cancelled; otherwise same control flow as handleAddBook regarding the
two module variables. -/
def deleteBook (s : StoreState) (confirmed : Bool)
    (outcome : MutationOutcome) (reload : FetchResult) : StoreState :=
  if confirmed then
    match outcome with
    | .httpOk => loadBooks s reload
    | .networkError => s
    | .httpFail => s
  else s

/-! ## Client rendering (renderBooks, escapeHtml and helpers) -/

/-- The single-quote character, written by code point to keep the source
free of quote literals. -/
def quoteChar : Char := Char.ofNat 39

/-- The character map of escapeHtml: each of the five markup-significant
characters goes to its HTML entity, every other character to itself.
This is what `text.replace(/[&<>"']/g, m => map[m])` does per match. -/
def escChar (c : Char) : List Char :=
  if c = '&' then "&amp;".data
  else if c = '<' then "&lt;".data
  else if c = '>' then "&gt;".data
  else if c = '"' then "&quot;".data
  else if c = quoteChar then "&#039;".data
  else [c]

/-- The global regex replace of escapeHtml over a whole character list. -/
def escChars : List Char → List Char
  | [] => []
  | c :: cs => escChar c ++ escChars cs

/-- escapeHtml: `if (!text) return ''` sends null, undefined and the
empty string to the empty string; any other string has each of the five
markup-significant characters replaced by its entity. -/
def escapeHtml : Option String → String
  | none => ""
  | some s => if s == "" then "" else ⟨escChars s.data⟩

/-- JavaScript truthiness of a string-or-null value: non-empty string. -/
def jsTruthyStr : Option String → Bool
  | none => false
  | some s => !(s == "")

/-- JavaScript truthiness of a number-or-null value: non-zero number. -/
def jsTruthyInt : Option Int → Bool
  | none => false
  | some n => !(n == 0)

/-- Template-literal interpolation of a string-or-null value: null
stringifies to the text null. -/
def jsStr : Option String → String
  | none => "null"
  | some s => s

/-- Template-literal interpolation of a number-or-null value. -/
def jsStrInt : Option Int → String
  | none => "null"
  | some n => toString n

/-- formatStatus: the three enumeration values map to display text; any
other value (a property miss on the statusMap object) falls through
`|| status` unchanged. -/
def formatStatus : Option String → Option String
  | some "read" => some "Read"
  | some "reading" => some "Currently Reading"
  | some "to-read" => some "To Read"
  | st => st

/-- Concatenation of the pieces of a template literal, in order. -/
def concatStrs : List String → String
  | [] => ""
  | s :: rest => s ++ concatStrs rest

/-- generateStars: the loop for i = 1..5 appends a filled star when
i <= rating and an empty star otherwise (a null rating compares as 0,
though the call site guards it behind truthiness). -/
def generateStars (rating : Option Int) : String :=
  concatStrs ((List.range 5).map (fun j =>
    if ((j : Int) + 1) ≤ (match rating with | some v => v | none => 0)
    then "<i class=\"fas fa-star\"></i>"
    else "<i class=\"far fa-star\"></i>"))

/-- The book-card template literal of renderBooks, one card per book,
with its interpolations in source order.  Literal markup is transcribed
with insignificant whitespace and the inert HTML comments elided.
escapeHtml wraps exactly the title, author, genre, isbn and notes
insertions; the status (twice), year_published and id insertions are
interpolated raw, as in the source. -/
def renderCard (book : Book) : String :=
  concatStrs
    [ "<div class=\"book-card\"><h3>"
    , escapeHtml (some book.title)
    , "</h3><p class=\"author\">by "
    , escapeHtml (some book.author)
    , "</p><div class=\"metadata\">"
    , (if jsTruthyStr book.genre then
        concatStrs ["<span><i class=\"fas fa-tag\"></i> ", escapeHtml book.genre, "</span>"]
       else "")
    , (if jsTruthyInt book.year_published then
        concatStrs ["<span><i class=\"fas fa-calendar\"></i> ", jsStrInt book.year_published, "</span>"]
       else "")
    , (if jsTruthyStr book.isbn then
        concatStrs ["<span><i class=\"fas fa-barcode\"></i> ", escapeHtml book.isbn, "</span>"]
       else "")
    , "</div><div><span class=\"status-badge status-"
    , jsStr book.status
    , "\">"
    , jsStr (formatStatus book.status)
    , "</span>"
    , (if jsTruthyInt book.rating then
        concatStrs ["<span class=\"rating\">", generateStars book.rating, "</span>"]
       else "")
    , "</div>"
    , (if jsTruthyStr book.notes then
        concatStrs ["<p class=\"notes\">", escapeHtml book.notes, "</p>"]
       else "")
    , "<div class=\"book-actions\"><button class=\"btn btn-edit\" onclick=\"openEditModal("
    , toString book.id
    , ")\"><i class=\"fas fa-edit\"></i> Edit</button><button class=\"btn btn-delete\" onclick=\"deleteBook("
    , toString book.id
    , ")\"><i class=\"fas fa-trash\"></i> Delete</button></div></div>" ]

/-- The empty-state markup renderBooks writes when filteredBooks is
empty. -/
def emptyStateHtml : String :=
  "<div class=\"empty-state\"><i class=\"fas fa-book\"></i><h3>No books found</h3><p>Add your first book to get started!</p></div>"

/-- renderBooks: the empty state for an empty filteredBooks, otherwise
the cards mapped over filteredBooks and joined with the empty string. -/
def renderBooks (filteredBooks : List Book) : String :=
  if filteredBooks.length == 0 then emptyStateHtml
  else concatStrs (filteredBooks.map renderCard)

/-- Modelled from the spec: the card renderer the escaping claim
describes, in which every book-supplied text value inserted into the
markup is escaped for the five markup-significant characters, including
the status (both insertions), year_published and id interpolations that
the source leaves raw.  Used only to compare the actual renderer against
the claim. -/
def renderCardClaimed (book : Book) : String :=
  concatStrs
    [ "<div class=\"book-card\"><h3>"
    , escapeHtml (some book.title)
    , "</h3><p class=\"author\">by "
    , escapeHtml (some book.author)
    , "</p><div class=\"metadata\">"
    , (if jsTruthyStr book.genre then
        concatStrs ["<span><i class=\"fas fa-tag\"></i> ", escapeHtml book.genre, "</span>"]
       else "")
    , (if jsTruthyInt book.year_published then
        concatStrs ["<span><i class=\"fas fa-calendar\"></i> ", escapeHtml (some (jsStrInt book.year_published)), "</span>"]
       else "")
    , (if jsTruthyStr book.isbn then
        concatStrs ["<span><i class=\"fas fa-barcode\"></i> ", escapeHtml book.isbn, "</span>"]
       else "")
    , "</div><div><span class=\"status-badge status-"
    , escapeHtml (some (jsStr book.status))
    , "\">"
    , escapeHtml (some (jsStr (formatStatus book.status)))
    , "</span>"
    , (if jsTruthyInt book.rating then
        concatStrs ["<span class=\"rating\">", generateStars book.rating, "</span>"]
       else "")
    , "</div>"
    , (if jsTruthyStr book.notes then
        concatStrs ["<p class=\"notes\">", escapeHtml book.notes, "</p>"]
       else "")
    , "<div class=\"book-actions\"><button class=\"btn btn-edit\" onclick=\"openEditModal("
    , escapeHtml (some (toString book.id))
    , ")\"><i class=\"fas fa-edit\"></i> Edit</button><button class=\"btn btn-delete\" onclick=\"deleteBook("
    , escapeHtml (some (toString book.id))
    , ")\"><i class=\"fas fa-trash\"></i> Delete</button></div></div>" ]

/-- Occurrence of one string inside another, as a character-list infix. -/
def strOccurs (p s : String) : Prop := p.data <:+: s.data

instance (p s : String) : Decidable (strOccurs p s) := by
  unfold strOccurs; infer_instance

instance (st : ClientState) : Decidable (∀ b ∈ st.filteredBooks, b ∈ st.books) :=
  inferInstance

/-- The invariant claim C10 speaks about: every displayed book is an
element of the full fetched set. -/
def filteredSubset (st : ClientState) : Prop :=
  ∀ b ∈ st.filteredBooks, b ∈ st.books

instance (st : ClientState) : Decidable (filteredSubset st) := by
  unfold filteredSubset; infer_instance

/-! ## Concrete fixtures used by counterexamples, instances and witnesses -/

/-- A create body holding only a non-empty title and author. -/
def bodyTitleAuthorOnly : BookBody :=
  { title := some "T"
    author := some "A"
    isbn := none
    genre := none
    year_published := none
    status := none
    rating := none
    notes := none }

/-- The row the create route persists and returns for
bodyTitleAuthorOnly: every unspecified column is NULL, including
status. -/
def rowTitleAuthorOnly : BookRow :=
  { id := 1
    title := some "T"
    author := some "A"
    isbn := none
    genre := none
    year_published := none
    status := none
    rating := none
    notes := none }

/-- A create body with the title missing. -/
def bodyMissingTitle : BookBody :=
  { title := none
    author := some "A"
    isbn := none
    genre := none
    year_published := none
    status := none
    rating := none
    notes := none }

/-- A stored row with id 1, used by the update witnesses. -/
def storedRowOne : BookRow :=
  { id := 1
    title := some "Old"
    author := some "Olda"
    isbn := none
    genre := none
    year_published := none
    status := some "read"
    rating := none
    notes := none }

/-- Four rows with statuses read, read, reading, to-read, two of which
carry ratings 5 and 4; the statistics claim names this population. -/
def fourStatusRows : List BookRow :=
  [ { id := 1, title := some "a", author := some "a", isbn := none, genre := none
      year_published := none, status := some "read", rating := some 5, notes := none }
  , { id := 2, title := some "b", author := some "b", isbn := none, genre := none
      year_published := none, status := some "read", rating := some 4, notes := none }
  , { id := 3, title := some "c", author := some "c", isbn := none, genre := none
      year_published := none, status := some "reading", rating := none, notes := none }
  , { id := 4, title := some "d", author := some "d", isbn := none, genre := none
      year_published := none, status := some "to-read", rating := none, notes := none } ]

/-- A client book with status read. -/
def bookRead : Book :=
  { id := 1, title := "A", author := "X", isbn := none, genre := none
    year_published := none, status := some "read", rating := none, notes := none }

/-- A client book with status reading. -/
def bookReading : Book :=
  { id := 2, title := "B", author := "Y", isbn := none, genre := none
    year_published := none, status := some "reading", rating := none, notes := none }

/-- A client state in which the status filter read has already been
applied on top of an empty search: filteredBooks has been narrowed to
the read book while the dropdown is about to change to reading. -/
def priorReadState : ClientState :=
  { books := [bookRead, bookReading]
    filteredBooks := [bookRead]
    searchValue := ""
    statusValue := "read" }

/-- A client state in which filteredBooks is exactly the search-filtered
subset (the search has just recomputed it, no narrower status applied). -/
def searchedState : ClientState :=
  { books := [bookRead, bookReading]
    filteredBooks := [bookRead, bookReading]
    searchValue := ""
    statusValue := "" }

/-- The Orwell book of the search example. -/
def orwellBook : Book :=
  { id := 2, title := "1984", author := "George Orwell", isbn := none, genre := none
    year_published := none, status := some "read", rating := none, notes := none }

/-- The other book of the search example. -/
def gatsbyBook : Book :=
  { id := 1, title := "The Great Gatsby", author := "F. Scott Fitzgerald", isbn := none
    genre := none, year_published := none, status := some "read", rating := none, notes := none }

/-- The client state the search example starts from: both books fetched,
no query, no status selected. -/
def orwellState : ClientState :=
  { books := [gatsbyBook, orwellBook]
    filteredBooks := [gatsbyBook, orwellBook]
    searchValue := ""
    statusValue := "" }

/-- A book whose status field carries injected markup: the client
renders whatever the fetched JSON holds. -/
def scriptStatusBook : Book :=
  { id := 1, title := "t", author := "a", isbn := none, genre := none
    year_published := none, status := some "<script>", rating := none, notes := none }

/-- A book whose title contains a script tag. -/
def scriptTitleBook : Book :=
  { id := 1, title := "x<script>y", author := "a", isbn := none, genre := none
    year_published := none, status := some "read", rating := none, notes := none }

/-- A store state holding one fetched book, before a failing reload. -/
def storeBefore : StoreState :=
  { books := Except.ok [bookRead]
    filteredBooks := [bookRead] }

/-! ## Helper lemmas -/

theorem strOccurs_append_left (p s t : String) (h : strOccurs p s) :
    strOccurs p (s ++ t) := by
  obtain ⟨u, v, huv⟩ := h
  exact ⟨u, v ++ t.data, by rw [String.data_append, ← huv]; simp⟩

theorem strOccurs_append_right (p s t : String) (h : strOccurs p t) :
    strOccurs p (s ++ t) := by
  obtain ⟨u, v, huv⟩ := h
  exact ⟨s.data ++ u, v, by rw [String.data_append, ← huv]; simp⟩

theorem strOccurs_concatStrs (p x : String) (l : List String)
    (hx : x ∈ l) (h : strOccurs p x) : strOccurs p (concatStrs l) := by
  induction l with
  | nil => cases hx
  | cons a as ih =>
    rcases List.mem_cons.mp hx with hxa | hmem
    · subst hxa
      exact strOccurs_append_left p x (concatStrs as) h
    · exact strOccurs_append_right p a (concatStrs as) (ih hmem)

theorem escChars_append (a b : List Char) :
    escChars (a ++ b) = escChars a ++ escChars b := by
  induction a with
  | nil => rfl
  | cons c cs ih => simp [escChars, ih]

theorem escChar_no_markup_char (a c : Char) (h : c ∈ escChar a) :
    c ≠ '<' ∧ c ≠ '>' ∧ c ≠ '"' ∧ c ≠ quoteChar := by
  unfold escChar at h
  split_ifs at h with h1 h2 h3 h4 h5
  · have h' : c ∈ ['&', 'a', 'm', 'p', ';'] := h
    fin_cases h' <;> decide
  · have h' : c ∈ ['&', 'l', 't', ';'] := h
    fin_cases h' <;> decide
  · have h' : c ∈ ['&', 'g', 't', ';'] := h
    fin_cases h' <;> decide
  · have h' : c ∈ ['&', 'q', 'u', 'o', 't', ';'] := h
    fin_cases h' <;> decide
  · have h' : c ∈ ['&', '#', '0', '3', '9', ';'] := h
    fin_cases h' <;> decide
  · rw [List.mem_singleton] at h
    subst h
    exact ⟨h2, h3, h4, h5⟩

theorem mem_escChars (c : Char) (l : List Char) (h : c ∈ escChars l) :
    ∃ a ∈ l, c ∈ escChar a := by
  induction l with
  | nil => cases h
  | cons a as ih =>
    rw [escChars, List.mem_append] at h
    cases h with
    | inl h => exact ⟨a, List.mem_cons_self a as, h⟩
    | inr h =>
      obtain ⟨a', ha', hc⟩ := ih h
      exact ⟨a', List.mem_cons_of_mem a ha', hc⟩

/-! ## Claim theorems -/

/-- C1 (code evaluated at the failing input): a create request carrying
only a non-empty title and author persists and returns a record whose
status is NULL, not the schema default to-read — the INSERT names the
status column explicitly, so the DEFAULT never applies and the absent
field is inserted as NULL.  All other optional fields are NULL as the
claim says. -/
theorem C1_create_without_status_persists_null_status :
    postBook [] 1 bodyTitleAuthorOnly =
      (ApiResponse.created (some rowTitleAuthorOnly), [rowTitleAuthorOnly]) ∧
    rowTitleAuthorOnly.status = none ∧
    rowTitleAuthorOnly.isbn = none ∧
    rowTitleAuthorOnly.genre = none ∧
    rowTitleAuthorOnly.year_published = none ∧
    rowTitleAuthorOnly.rating = none ∧
    rowTitleAuthorOnly.notes = none := by
  decide

/-- C2 counterexample: in a state where the status filter read had
already narrowed filteredBooks, changing the selection to reading does
not yield the intersection of the search-filtered subset of books with
the reading books (which would be the one reading book): the handler
filters the already-narrowed list and produces the empty list. -/
theorem C2_filter_change_not_intersection :
    (handleFilter priorReadState "reading").filteredBooks ≠
      (priorReadState.books.filter
          (searchMatches (toLowerStr priorReadState.searchValue))).filter
        (fun b => b.status == some "reading") := by
  decide

/-- C2 amended: on a selection change the handler intersects the
current filteredBooks — which may already reflect an earlier status
selection — with the newly selected status (no change when the
all-statuses choice, the empty value, is selected), and leaves books
unchanged; the claimed intersection with the search-filtered subset
holds exactly when the current filteredBooks is that subset, e.g.
immediately after a search recomputation. -/
theorem C2_filter_narrows_current_filteredBooks (st : ClientState) (v : String) :
    ((handleFilter st v).filteredBooks =
      if v = "" then st.filteredBooks
      else st.filteredBooks.filter (fun b => b.status == some v)) ∧
    (handleFilter st v).books = st.books ∧
    (st.filteredBooks = st.books.filter (searchMatches (toLowerStr st.searchValue)) →
      (handleFilter st v).filteredBooks =
        if v = "" then st.books.filter (searchMatches (toLowerStr st.searchValue))
        else (st.books.filter (searchMatches (toLowerStr st.searchValue))).filter
          (fun b => b.status == some v)) := by
  have h1 : (handleFilter st v).filteredBooks =
      if v = "" then st.filteredBooks
      else st.filteredBooks.filter (fun b => b.status == some v) := by
    unfold handleFilter applyStatusFilter
    by_cases hv : v = ""
    · subst hv; simp
    · simp [hv]
  have h2 : (handleFilter st v).books = st.books := by
    unfold handleFilter applyStatusFilter
    by_cases hv : v = ""
    · subst hv; simp
    · simp [hv]
  exact ⟨h1, h2, fun h => by rw [← h]; exact h1⟩

/-- C2 witness: starting from a state whose filteredBooks is exactly the
search-filtered subset, a change of the selection to read does produce
the claimed intersection. -/
theorem C2_filter_witness :
    (handleFilter searchedState "read").filteredBooks =
      if ("read" : String) = "" then
        searchedState.books.filter (searchMatches (toLowerStr searchedState.searchValue))
      else (searchedState.books.filter
          (searchMatches (toLowerStr searchedState.searchValue))).filter
        (fun b => b.status == some "read") :=
  (C2_filter_narrows_current_filteredBooks searchedState "read").2.2 (by decide)

/-- C3 counterexample: a load that receives a non-success response
overwrites the books variable with the parsed error body, so the
in-memory state after this failing operation differs from the state
before it. -/
theorem C3_failed_load_overwrites_books :
    (loadBooks storeBefore (FetchResult.httpError "Internal server error")).books ≠
      storeBefore.books := by
  simp [loadBooks, storeBefore]

/-- C3 amended: create, edit and delete leave books and filteredBooks
unchanged on every failing outcome, and so does a load that fails at the
network level; but a load that receives a non-success response
overwrites books with the parsed error body (filteredBooks alone stays
unchanged, because the array spread throws before its assignment). -/
theorem C3_failure_leaves_state_unchanged (s : StoreState) (r : FetchResult)
    (m : String) (c : Bool) :
    handleAddBook s MutationOutcome.networkError r = s ∧
    handleAddBook s MutationOutcome.httpFail r = s ∧
    handleEditBook s MutationOutcome.networkError r = s ∧
    handleEditBook s MutationOutcome.httpFail r = s ∧
    deleteBook s c MutationOutcome.networkError r = s ∧
    deleteBook s c MutationOutcome.httpFail r = s ∧
    loadBooks s FetchResult.networkError = s ∧
    (loadBooks s (FetchResult.httpError m)).filteredBooks = s.filteredBooks ∧
    (loadBooks s (FetchResult.httpError m)).books = Except.error m := by
  refine ⟨rfl, rfl, rfl, rfl, ?_, ?_, rfl, rfl, rfl⟩ <;> cases c <;> rfl

/-- C7: the create route answers 400 with no storage touched whenever
title or author is absent (undefined, null, or the empty string, which
the client normalizes to absent and the route's truthiness test treats
alike), and never signals the validation failure when both are
present. -/
theorem C7_create_validates_title_author (db : List BookRow) (n : Nat)
    (body : BookBody) :
    ((jsFalsyStr body.title || jsFalsyStr body.author) = true →
      postBook db n body = (ApiResponse.badRequest "Title and author are required", db)) ∧
    ((jsFalsyStr body.title || jsFalsyStr body.author) = false →
      isBadRequest (postBook db n body).1 = false) := by
  constructor
  · intro h
    simp [postBook, h]
  · intro h
    simp [postBook, h, isBadRequest]

/-- C7 witness: a body missing its title is rejected with the table
untouched, and a body carrying both fields is not rejected. -/
theorem C7_create_validation_witness :
    postBook [] 1 bodyMissingTitle =
      (ApiResponse.badRequest "Title and author are required", []) ∧
    isBadRequest (postBook [] 1 bodyTitleAuthorOnly).1 = false :=
  ⟨(C7_create_validates_title_author [] 1 bodyMissingTitle).1 (by decide),
   (C7_create_validates_title_author [] 1 bodyTitleAuthorOnly).2 (by decide)⟩

/-- C8: the update route never signals the 400 validation failure, and
for every body — including one missing title or author — it issues the
unconditional update of all mutable columns of every row with the given
id. -/
theorem C8_update_never_validates (db : List BookRow) (i : Nat) (body : BookBody) :
    isBadRequest (putBook db i body).1 = false ∧
    (putBook db i body).2 =
      db.map (fun r => if r.id = i then setRow body r else r) := by
  constructor <;>
    rcases h : db.countP (fun r => r.id == i) with _ | n <;>
      simp [putBook, h, isBadRequest]

/-! ## More helper lemmas for the client handlers and statistics -/

theorem handleFilter_filteredBooks_eq (st : ClientState) (v : String) :
    (handleFilter st v).filteredBooks =
      if v = "" then st.filteredBooks
      else st.filteredBooks.filter (fun b => b.status == some v) := by
  unfold handleFilter applyStatusFilter
  by_cases hv : v = ""
  · subst hv; simp
  · simp [hv]

theorem handleFilter_books_eq (st : ClientState) (v : String) :
    (handleFilter st v).books = st.books := by
  unfold handleFilter applyStatusFilter
  by_cases hv : v = ""
  · subst hv; simp
  · simp [hv]

theorem mem_handleSearch_iff (st : ClientState) (q : String) (b : Book) :
    b ∈ (handleSearch st q).filteredBooks ↔
      b ∈ st.books ∧ searchMatches (toLowerStr q) b = true ∧
        (st.statusValue = "" ∨ b.status = some st.statusValue) := by
  unfold handleSearch applyStatusFilter
  by_cases hv : st.statusValue = ""
  · simp [hv, List.mem_filter]
  · simp [hv, List.mem_filter, beq_iff_eq, and_assoc]
    tauto

theorem handleSearch_books_eq (st : ClientState) (q : String) :
    (handleSearch st q).books = st.books := by
  unfold handleSearch applyStatusFilter
  by_cases hv : st.statusValue = ""
  · simp [hv]
  · simp [hv]

theorem find?_map_setRow (db : List BookRow) (i : Nat) (body : BookBody)
    (h : ∃ r ∈ db, r.id = i) :
    (db.map (fun r => if r.id = i then setRow body r else r)).find?
        (fun r => r.id == i) =
      some { id := i
             title := body.title
             author := body.author
             isbn := body.isbn
             genre := body.genre
             year_published := body.year_published
             status := body.status
             rating := body.rating
             notes := body.notes } := by
  induction db with
  | nil => simp at h
  | cons a as ih =>
    by_cases ha : a.id = i
    · simp only [List.map_cons, if_pos ha]
      rw [List.find?_cons_of_pos _ (by simp [setRow, ha])]
      cases a
      simp_all [setRow]
    · simp only [List.map_cons, if_neg ha]
      rw [List.find?_cons_of_neg _ (by simp [ha])]
      apply ih
      obtain ⟨r, hr, hri⟩ := h
      rcases List.mem_cons.mp hr with rfl | hmem
      · exact absurd hri ha
      · exact ⟨r, hmem, hri⟩

theorem statsScan_spec (db : List BookRow) :
    statsScan db =
      { total_books := db.length
        books_read := db.countP (fun r => r.status == some "read")
        books_reading := db.countP (fun r => r.status == some "reading")
        books_to_read := db.countP (fun r => r.status == some "to-read")
        rating_sum := (db.filterMap (fun r => r.rating)).sum
        rating_count := (db.filterMap (fun r => r.rating)).length } := by
  induction db with
  | nil => rfl
  | cons r rs ih =>
    simp only [statsScan]
    rw [ih]
    cases hr : r.rating with
    | none =>
      simp [List.countP_cons, List.filterMap_cons, hr, StatsAcc.mk.injEq]
    | some v =>
      simp [List.countP_cons, List.filterMap_cons, hr, StatsAcc.mk.injEq,
        List.sum_cons]
      omega

theorem getStats_spec (db : List BookRow) :
    getStats db =
      { total_books := db.length
        books_read := db.countP (fun r => r.status == some "read")
        books_reading := db.countP (fun r => r.status == some "reading")
        books_to_read := db.countP (fun r => r.status == some "to-read")
        average_rating :=
          if db.filterMap (fun r => r.rating) = [] then none
          else some ((((db.filterMap (fun r => r.rating)).sum : Int) : Rat) /
            ((db.filterMap (fun r => r.rating)).length : Rat)) } := by
  unfold getStats
  rw [statsScan_spec]
  simp only [List.length_eq_zero]

/-- C4 counterexample: the card renderer does not coincide with the
renderer that escapes every book-supplied insertion — a book whose
status field carries a script tag is rendered with that tag inserted
verbatim (the status interpolations are not escaped), so not every
rendered book field is escaped before insertion. -/
theorem C4_status_not_escaped :
    renderCard scriptStatusBook ≠ renderCardClaimed scriptStatusBook := by
  decide

/-- C4 amended: the five text fields that the renderer does pass through
escapeHtml — title, author, genre, isbn, notes — are fully sanitized:
the output of escapeHtml contains no raw markup-significant character
other than the leading ampersands of entities, and in particular a
title containing a script tag renders with that substring escaped to
its entity form inside the card; the status, year_published and id
interpolations are inserted without escaping. -/
theorem C4_escaped_fields_sanitized (b : Book) (s : String) :
    (∀ c, c ∈ (escapeHtml (some s)).data →
      c ≠ '<' ∧ c ≠ '>' ∧ c ≠ '"' ∧ c ≠ quoteChar) ∧
    (strOccurs "<script>" b.title → strOccurs "&lt;script&gt;" (renderCard b)) := by
  constructor
  · intro c hc
    by_cases hs : s = ""
    · subst hs
      have h0 : escapeHtml (some "") = "" := rfl
      rw [h0] at hc
      cases hc
    · have he : escapeHtml (some s) = ⟨escChars s.data⟩ := by
        simp only [escapeHtml]
        rw [if_neg (by simp [hs])]
      rw [he] at hc
      obtain ⟨a, _, hca⟩ := mem_escChars c s.data hc
      exact escChar_no_markup_char a c hca
  · intro h
    obtain ⟨u, v, huv⟩ := h
    have htitle : b.title ≠ "" := by
      intro h0
      rw [h0] at huv
      rcases List.append_eq_nil.mp huv with ⟨h1, _⟩
      rcases List.append_eq_nil.mp h1 with ⟨_, h3⟩
      exact absurd h3 (by decide)
    have he : escapeHtml (some b.title) = ⟨escChars b.title.data⟩ := by
      simp only [escapeHtml]
      rw [if_neg (by simp [htitle])]
    have hescp : escChars ("<script>".data) = ("&lt;script&gt;".data) := by decide
    have hocc : strOccurs "&lt;script&gt;" (escapeHtml (some b.title)) := by
      rw [he]
      refine ⟨escChars u, escChars v, ?_⟩
      show escChars u ++ ("&lt;script&gt;".data) ++ escChars v = escChars b.title.data
      rw [← huv, escChars_append, escChars_append, hescp]
    unfold renderCard
    exact strOccurs_concatStrs _ (escapeHtml (some b.title)) _ (by simp) hocc

/-- C4 witness: the sanitization facts at concrete inputs — the
ampersand of the entity produced for a less-than sign is none of the
four raw markup characters, and the card of a book titled with an
embedded script tag contains the escaped entity form. -/
theorem C4_escape_witness :
    ('&' ≠ '<' ∧ '&' ≠ '>' ∧ '&' ≠ '"' ∧ '&' ≠ quoteChar) ∧
    strOccurs "&lt;script&gt;" (renderCard scriptTitleBook) :=
  ⟨(C4_escaped_fields_sanitized scriptTitleBook "<x").1 '&' (by decide),
   (C4_escaped_fields_sanitized scriptTitleBook "<x").2 (by decide)⟩

/-- C5: on every search keystroke the handler recomputes filteredBooks
from the full books list — a book is displayed exactly when it is in
books, its title or author contains the lowercased query, and it passes
the currently selected status filter (intersection); in particular,
searching orwell in a two-book state with no status selected returns
exactly the book authored by George Orwell. -/
theorem C5_search_recomputes_and_intersects (st : ClientState) (q : String) (b : Book) :
    (b ∈ (handleSearch st q).filteredBooks ↔
      b ∈ st.books ∧ searchMatches (toLowerStr q) b = true ∧
        (st.statusValue = "" ∨ b.status = some st.statusValue)) ∧
    (handleSearch orwellState "orwell").filteredBooks = [orwellBook] := by
  exact ⟨mem_handleSearch_iff st q b, by decide⟩

/-- C6: an update whose id matches no stored row answers 404 and leaves
the table unchanged; an update whose id matches a row answers 200 with
the re-read updated record — the row with that id whose mutable columns
all carry the body values — and the table holds the updated rows. -/
theorem C6_update_notfound_or_reread (db : List BookRow) (i : Nat) (body : BookBody) :
    ((∀ r ∈ db, r.id ≠ i) →
      putBook db i body = (ApiResponse.notFound "Book not found", db)) ∧
    ((∃ r ∈ db, r.id = i) →
      putBook db i body =
        (ApiResponse.okBook (some
          { id := i
            title := body.title
            author := body.author
            isbn := body.isbn
            genre := body.genre
            year_published := body.year_published
            status := body.status
            rating := body.rating
            notes := body.notes }),
         db.map (fun r => if r.id = i then setRow body r else r))) := by
  constructor
  · intro h
    have hc : db.countP (fun r => r.id == i) = 0 :=
      List.countP_eq_zero.mpr (fun r hr => by simp [h r hr])
    have hmap : db.map (fun r => if r.id = i then setRow body r else r) = db := by
      rw [List.map_congr_left (fun r hr => if_neg (h r hr))]
      exact List.map_id db
    simp [putBook, hc, hmap]
  · intro h
    have hc : db.countP (fun r => r.id == i) ≠ 0 := by
      obtain ⟨r, hr, hri⟩ := h
      intro h0
      exact absurd (by simp [hri]) (List.countP_eq_zero.mp h0 r hr)
    simp [putBook, hc, find?_map_setRow db i body h]

/-- C6 witness: against a one-row table, an update aimed at an absent id
answers 404 with the table unchanged, and an update aimed at the stored
id answers 200 with the updated record. -/
theorem C6_update_witness :
    putBook [storedRowOne] 7 bodyTitleAuthorOnly =
      (ApiResponse.notFound "Book not found", [storedRowOne]) ∧
    putBook [storedRowOne] 1 bodyTitleAuthorOnly =
      (ApiResponse.okBook (some
        { id := 1
          title := bodyTitleAuthorOnly.title
          author := bodyTitleAuthorOnly.author
          isbn := bodyTitleAuthorOnly.isbn
          genre := bodyTitleAuthorOnly.genre
          year_published := bodyTitleAuthorOnly.year_published
          status := bodyTitleAuthorOnly.status
          rating := bodyTitleAuthorOnly.rating
          notes := bodyTitleAuthorOnly.notes }),
       [storedRowOne].map
         (fun r => if r.id = 1 then setRow bodyTitleAuthorOnly r else r)) :=
  ⟨(C6_update_notfound_or_reread [storedRowOne] 7 bodyTitleAuthorOnly).1 (by decide),
   (C6_update_notfound_or_reread [storedRowOne] 1 bodyTitleAuthorOnly).2 (by decide)⟩

/-- C9: the statistics endpoint reports the row count, the per-status
counts, and the arithmetic mean of the non-null ratings (null when no
row has a rating); on the four-row population with statuses read, read,
reading, to-read it reports 4, 2, 1, 1 with mean rating 9/2. -/
theorem C9_statistics_aggregates (db : List BookRow) :
    getStats db =
      { total_books := db.length
        books_read := db.countP (fun r => r.status == some "read")
        books_reading := db.countP (fun r => r.status == some "reading")
        books_to_read := db.countP (fun r => r.status == some "to-read")
        average_rating :=
          if db.filterMap (fun r => r.rating) = [] then none
          else some ((((db.filterMap (fun r => r.rating)).sum : Int) : Rat) /
            ((db.filterMap (fun r => r.rating)).length : Rat)) } ∧
    (getStats fourStatusRows).total_books = 4 ∧
    (getStats fourStatusRows).books_read = 2 ∧
    (getStats fourStatusRows).books_reading = 1 ∧
    (getStats fourStatusRows).books_to_read = 1 ∧
    (getStats fourStatusRows).average_rating = some ((9 : Rat) / 2) := by
  refine ⟨getStats_spec db, ?_, ?_, ?_, ?_, ?_⟩ <;>
    rw [getStats_spec fourStatusRows]
  · decide
  · decide
  · decide
  · decide
  · norm_num [fourStatusRows, List.filterMap_cons, List.sum_cons]
    exact fun h => absurd h (by decide)

/-- C10: the displayed subset never holds a record absent from the full
fetched set — a successful load makes filteredBooks the fetched list
itself, a search recomputation filters the books list, and a
status-filter application narrows a filteredBooks that was already a
subset of books. -/
theorem C10_filtered_subset_of_books :
    (∀ (s : StoreState) (bs : List Book) (b : Book),
        b ∈ (loadBooks s (FetchResult.httpOk bs)).filteredBooks →
        (loadBooks s (FetchResult.httpOk bs)).books = Except.ok bs ∧ b ∈ bs) ∧
    (∀ (st : ClientState) (q : String), filteredSubset (handleSearch st q)) ∧
    (∀ (st : ClientState) (v : String),
        filteredSubset st → filteredSubset (handleFilter st v)) := by
  refine ⟨?_, ?_, ?_⟩
  · intro s bs b hb
    exact ⟨rfl, hb⟩
  · intro st q b hb
    rw [handleSearch_books_eq]
    exact ((mem_handleSearch_iff st q b).mp hb).1
  · intro st v hsub b hb
    rw [handleFilter_books_eq]
    rw [handleFilter_filteredBooks_eq] at hb
    split at hb
    · exact hsub b hb
    · exact hsub b (List.mem_filter.mp hb).1

/-- C10 witness: the invariant facts at concrete inputs — after a
successful load of one book the variables hold exactly that book, and a
filter application to a state satisfying the subset invariant keeps
it. -/
theorem C10_subset_witness :
    ((loadBooks storeBefore (FetchResult.httpOk [bookRead])).books =
        Except.ok [bookRead] ∧ bookRead ∈ [bookRead]) ∧
    filteredSubset (handleFilter priorReadState "reading") :=
  ⟨C10_filtered_subset_of_books.1 storeBefore [bookRead] bookRead (by decide),
   C10_filtered_subset_of_books.2.2 priorReadState "reading" (by decide)⟩
